import Mathlib

/-!
Shallow embedding of the Automated Table Views backend (Express + BigQuery POC).

The embedding models:
- the JavaScript value model used by filter definitions (strings, numbers,
  booleans, null, undefined) together with the JS coercions the code relies on
  (truthiness, `Number(...)`, `String(...)`);
- the predicate compiler `buildPredicateFromDef` / `buildPredicateFromUser`
  from the backend server file, producing predicate fragments as a small
  expression type `SqlPred` whose `renderPred` reproduces the exact SQL strings
  the source interpolates;
- the WHERE-clause assembly over saved and user filters;
- `generateFilterConfig` / `generateFilterConfigFromSchema` (option discovery)
  with the BigQuery client abstracted as a function from query strings to
  results;
- pagination clamping and the `/api/page-data` handler with the store
  interactions logged, so that "no store call" claims are expressible.

Machine integers are modelled as `Int`; JS `Number` coercion of strings is
modelled as an optional-sign integer parse (fractional and exponent literals
are outside the modelled scope), with every unparsable string mapping to NaN
exactly as `Number` does.
-/

/-- Single-quote character, written by code point to keep the file free of
quote literals. -/
def sqChar : Char := Char.ofNat 39

/-- Single-quote as a one-character string. -/
def sqString : String := sqChar.toString

/-- JavaScript values as they occur in filter definitions and query rows. -/
inductive JsValue where
  | vStr (s : String)
  | vInt (n : Int)
  | vBool (b : Bool)
  | vNull
  | vUndef
deriving DecidableEq

/-- Result of the JS `Number(...)` coercion: a number or NaN. -/
inductive JsNum where
  | num (n : Int)
  | nan
deriving DecidableEq

/-- ASCII upper-casing, character-list based so that it evaluates in the
kernel (JS `toUpperCase` on the identifiers used here is ASCII). -/
def toUpperStr (s : String) : String :=
  ⟨s.data.map Char.toUpper⟩

/-- ASCII lower-casing, character-list based so that it evaluates in the
kernel (JS `toLowerCase` on the modalities used here is ASCII). -/
def toLowerStr (s : String) : String :=
  ⟨s.data.map Char.toLower⟩

/-- Leading and trailing whitespace removed from a character list. -/
def trimChars (l : List Char) : List Char :=
  ((l.dropWhile Char.isWhitespace).reverse.dropWhile Char.isWhitespace).reverse

/-- Decimal digit parser accumulating a natural number; any non-digit
character rejects the whole string, as JS `Number` does for integers. -/
def parseNatAux : List Char → Nat → Option Nat
  | [], acc => some acc
  | c :: rest, acc =>
    if c.isDigit then parseNatAux rest (acc * 10 + (c.toNat - 48)) else none

/-- Parse a non-empty all-digit character list as a natural number. -/
def parseNatChars (l : List Char) : Option Nat :=
  if l.isEmpty then none else parseNatAux l 0

/-- JS truthiness of a value (used by `values[0] ? ... : ...` and `!v0`). -/
def truthy : JsValue → Bool
  | .vStr s => s ≠ ""
  | .vInt n => n ≠ 0
  | .vBool b => b
  | .vNull => false
  | .vUndef => false

/-- JS `Number(...)` coercion. Numeric strings are modelled as integer
literals (after trimming); every other non-empty string is NaN, as in JS. -/
def jsNumber : JsValue → JsNum
  | .vInt n => .num n
  | .vBool b => .num (if b then 1 else 0)
  | .vNull => .num 0
  | .vUndef => .nan
  | .vStr s =>
    match trimChars s.data with
    | [] => .num 0
    | c :: rest =>
      if c = Char.ofNat 45 then
        match parseNatChars rest with
        | some n => .num (-(n : Int))
        | none => .nan
      else if c = Char.ofNat 43 then
        match parseNatChars rest with
        | some n => .num (n : Int)
        | none => .nan
      else
        match parseNatChars (c :: rest) with
        | some n => .num (n : Int)
        | none => .nan

/-- JS `String(...)` coercion. -/
def jsString : JsValue → String
  | .vStr s => s
  | .vInt n => toString n
  | .vBool b => if b then "true" else "false"
  | .vNull => "null"
  | .vUndef => "undefined"

/-- Rendering of a `Number(...)` result inside a template literal. -/
def jsNumToString : JsNum → String
  | .num n => toString n
  | .nan => "NaN"

/-- JS `Number(x) || 0` (used for counts read back from the store). -/
def jsNumOrZero : JsNum → Int
  | .num n => n
  | .nan => 0

/-- JS `a || b` on a possibly-absent string (absent or empty falls to `b`). -/
def jsOrStr (a : Option String) (b : String) : String :=
  match a with
  | some s => if s = "" then b else s
  | none => b

/-- JS `a || b` on a possibly-absent integer (absent or zero falls to `b`). -/
def jsOrInt (a : Option Int) (b : Int) : Int :=
  match a with
  | some n => if n = 0 then b else n
  | none => b

/-- Escape one character for a SQL string literal: the single-quote doubles,
everything else passes through (the replace-all of single quotes with
doubled quotes in the source). -/
def escChar (c : Char) : List Char :=
  if c = sqChar then [sqChar, sqChar] else [c]

/-- Escape a character list by doubling every single quote. -/
def escList (l : List Char) : List Char :=
  (l.map escChar).flatten

/-- Escape a string by doubling every embedded single quote. -/
def escapeQuotes (s : String) : String :=
  ⟨escList s.data⟩

/-- Embeds `sqlStringLiteral` from the server: `null`/`undefined` render as
the keyword NULL, every other value is stringified, quote-doubled, and
wrapped in single quotes. -/
def sqlStringLiteral (value : JsValue) : String :=
  match value with
  | .vNull => "NULL"
  | .vUndef => "NULL"
  | v => sqString ++ escapeQuotes (jsString v) ++ sqString

/-- Backtick-quoted column identifier, as built throughout the server. -/
def identStr (column : String) : String :=
  "`" ++ column ++ "`"

/-- Modality field of a filter definition: absent, a bare string, or a list
of strings (saved filters use the list form). -/
inductive ModalityInput where
  | absent
  | str (s : String)
  | arr (l : List String)
deriving DecidableEq

/-- Embeds `normalizeModality`: first element of a non-empty list, or the
bare string, lower-cased; anything else normalizes to the empty string. -/
def normalizeModality : ModalityInput → String
  | .arr (m :: _) => toLowerStr m
  | .arr [] => ""
  | .str s => toLowerStr s
  | .absent => ""

/-- One filter definition entry (`{ type, modality, values }` in the source;
absent fields are modelled with `Option`/defaults). -/
structure FilterDef where
  type : Option String := none
  modality : ModalityInput := .absent
  values : List JsValue := []
deriving DecidableEq

/-- Comparison operator of a compiled numeric or date fragment. -/
inductive CmpOp where
  | lt
  | gt
  | eq
deriving DecidableEq

/-- Compiled predicate fragments. Each constructor corresponds to one
`return` of `buildPredicateFromDef` / `buildPredicateFromUser`; `renderPred`
reproduces the exact SQL string the source interpolates for it. -/
inductive SqlPred where
  | emptyPred (column : String)
  | notEmptyPred (column : String)
  | inList (column : String) (values : List JsValue)
  | boolEq (column : String) (value : Bool)
  | numCmp (column : String) (op : CmpOp) (value : JsNum)
  | numBetween (column : String) (lo hi : JsNum)
  | dateCmp (column : String) (op : CmpOp) (value : JsValue)
  | dateBetween (column : String) (lo hi : JsValue)
  | dateToken (column : String) (token : String)
  | eqLower (column : String) (pattern : String)
  | likePred (column : String) (pattern : String)
deriving DecidableEq

/-- Rendered comparison operator with the surrounding spaces of the source. -/
def cmpOpStr : CmpOp → String
  | .lt => " < "
  | .gt => " > "
  | .eq => " = "

/-- Embeds the `empty` string of `buildEmptyNotEmpty`. -/
def emptyExprStr (column : String) : String :=
  "(" ++ identStr column ++ " IS NULL OR CAST(" ++ identStr column
    ++ " AS STRING) = " ++ sqString ++ sqString ++ ")"

/-- Rendering of the relative date tokens supported for user filters
(lines with CURRENT_DATE arithmetic in the source); tokens outside the
recognized vocabulary are never constructed by the compiler. -/
def renderDateToken (column token : String) : String :=
  let colDate := "DATE(" ++ identStr column ++ ")"
  if token = "today" then colDate ++ " = CURRENT_DATE()"
  else if token = "yesterday" then
    colDate ++ " = DATE_SUB(CURRENT_DATE(), INTERVAL 1 DAY)"
  else if token = "last 7 days" then
    colDate ++ " BETWEEN DATE_SUB(CURRENT_DATE(), INTERVAL 7 DAY) AND CURRENT_DATE()"
  else if token = "this month" then
    colDate ++ " BETWEEN DATE_TRUNC(CURRENT_DATE(), MONTH) AND CURRENT_DATE()"
  else if token = "last month" then
    colDate ++ " BETWEEN DATE_SUB(DATE_TRUNC(CURRENT_DATE(), MONTH), INTERVAL 1 MONTH) AND DATE_SUB(DATE_TRUNC(CURRENT_DATE(), MONTH), INTERVAL 1 DAY)"
  else if token = "tomorrow" then
    colDate ++ " = DATE_ADD(CURRENT_DATE(), INTERVAL 1 DAY)"
  else if token = "next 7 days" then
    colDate ++ " BETWEEN CURRENT_DATE() AND DATE_ADD(CURRENT_DATE(), INTERVAL 7 DAY)"
  else if token = "next month" then
    colDate ++ " BETWEEN DATE_TRUNC(DATE_ADD(CURRENT_DATE(), INTERVAL 1 MONTH), MONTH) AND DATE_SUB(DATE_TRUNC(DATE_ADD(CURRENT_DATE(), INTERVAL 2 MONTH), MONTH), INTERVAL 1 DAY)"
  else ""

/-- Render a compiled fragment to the exact SQL string the server builds. -/
def renderPred : SqlPred → String
  | .emptyPred c => emptyExprStr c
  | .notEmptyPred c => "(NOT " ++ emptyExprStr c ++ ")"
  | .inList c vs =>
    identStr c ++ " IN (" ++ String.intercalate ", " (vs.map sqlStringLiteral) ++ ")"
  | .boolEq c b => identStr c ++ " = " ++ (if b then "TRUE" else "FALSE")
  | .numCmp c op v => identStr c ++ cmpOpStr op ++ jsNumToString v
  | .numBetween c a b =>
    identStr c ++ " BETWEEN " ++ jsNumToString a ++ " AND " ++ jsNumToString b
  | .dateCmp c op v =>
    "DATE(" ++ identStr c ++ ")" ++ cmpOpStr op ++ "DATE(" ++ sqlStringLiteral v ++ ")"
  | .dateBetween c a b =>
    "DATE(" ++ identStr c ++ ") BETWEEN DATE(" ++ sqlStringLiteral a
      ++ ") AND DATE(" ++ sqlStringLiteral b ++ ")"
  | .dateToken c tok => renderDateToken c tok
  | .eqLower c p =>
    "LOWER(CAST(" ++ identStr c ++ " AS STRING)) = LOWER(" ++ sqlStringLiteral (.vStr p) ++ ")"
  | .likePred c p =>
    "LOWER(CAST(" ++ identStr c ++ " AS STRING)) LIKE LOWER(" ++ sqlStringLiteral (.vStr p) ++ ")"

/-- Date-family membership check over DATE, DATETIME and TIMESTAMP. -/
def isDateType (type : String) : Bool :=
  type = "DATE" || type = "DATETIME" || type = "TIMESTAMP"

/-- Membership in the is_null / empty / is empty modality list. -/
def isEmptyModality (m : String) : Bool :=
  m = "is_null" || m = "empty" || m = "is empty"

/-- Membership in the is_not_null / not_empty / is not empty modality list. -/
def isNotEmptyModality (m : String) : Bool :=
  m = "is_not_null" || m = "not_empty" || m = "is not empty"

/-- Substring occurrence over character lists (unanchored search). -/
def containsAux (pat : List Char) : List Char → Bool
  | [] => pat.isPrefixOf []
  | c :: rest => pat.isPrefixOf (c :: rest) || containsAux pat rest

/-- Check of the case-insensitive regex over `top 10%` and `bottom 10%`
applied to string values in the user NUMERIC branch. -/
def containsSub (s pat : String) : Bool :=
  containsAux pat.data s.data

/-- JS check that a string value matches the case-insensitive regex over
the top 10 percent and bottom 10 percent tokens. -/
def isTopBottomToken : JsValue → Bool
  | .vStr s => containsSub (toLowerStr s) "top 10%" || containsSub (toLowerStr s) "bottom 10%"
  | _ => false

/-- Embeds `buildPredicateFromDef` (saved-filter path) from the server,
branch for branch. -/
def buildPredicateFromDef (column : String) (d : FilterDef) : Option SqlPred :=
  let type := toUpperStr (jsOrStr d.type "")
  let modality := normalizeModality d.modality
  let values := d.values
  if !isDateType type && isEmptyModality modality then some (.emptyPred column)
  else if !isDateType type && isNotEmptyModality modality then some (.notEmptyPred column)
  else if type = "LIST" then
    if values.isEmpty then none else some (.inList column values)
  else if type = "BOOLEAN" || type = "BOOL" then
    if values.isEmpty then none
    else some (.boolEq column (truthy (values.getD 0 .vUndef)))
  else if type = "NUMERIC" then
    let v0 := values.getD 0 .vUndef
    let v1 := values.getD 1 .vUndef
    if modality = "greater than" then some (.numCmp column .gt (jsNumber v0))
    else if modality = "less than" then some (.numCmp column .lt (jsNumber v0))
    else if modality = "between" then some (.numBetween column (jsNumber v0) (jsNumber v1))
    else some (.numCmp column .eq (jsNumber v0))
  else if isDateType type then
    let v0 := values.getD 0 .vUndef
    let v1 := values.getD 1 .vUndef
    if !truthy v0 && !truthy v1 then none
    else if modality = "before" then some (.dateCmp column .lt v0)
    else if modality = "after" then some (.dateCmp column .gt v0)
    else if modality = "between" then some (.dateBetween column v0 v1)
    else some (.dateCmp column .eq v0)
  else if !values.isEmpty then
    let v0 := values.getD 0 .vUndef
    let pattern :=
      if normalizeModality d.modality = "exact" then jsString v0
      else if normalizeModality d.modality = "starts with" then jsString v0 ++ "%"
      else "%" ++ jsString v0 ++ "%"
    if normalizeModality d.modality = "exact" then some (.eqLower column pattern)
    else some (.likePred column pattern)
  else none

/-- Embeds `buildPredicateFromUser` (user-filter path) from the server,
branch for branch; `fieldType` is the schema type looked up by the caller. -/
def buildPredicateFromUser (column : String) (userDef : FilterDef)
    (fieldType : String) : Option SqlPred :=
  let type := toUpperStr (jsOrStr userDef.type fieldType)
  let values := userDef.values
  let modality := normalizeModality userDef.modality
  if values = [.vStr "Empty"] then some (.emptyPred column)
  else if values = [.vStr "Not Empty"] then some (.notEmptyPred column)
  else if !isDateType type && isEmptyModality modality then some (.emptyPred column)
  else if !isDateType type && isNotEmptyModality modality then some (.notEmptyPred column)
  else if type = "LIST" then
    if values.isEmpty then none else some (.inList column values)
  else if type = "BOOLEAN" || type = "BOOL" then
    if values.isEmpty then none
    else some (.boolEq column (truthy (values.getD 0 .vUndef)))
  else if type = "NUMERIC" then
    if values.isEmpty then none
    else if isTopBottomToken (values.getD 0 .vUndef) then none
    else some (.numCmp column .eq (jsNumber (values.getD 0 .vUndef)))
  else if isDateType type then
    let token := values.getD 0 .vUndef
    if !truthy token then none
    else if token = .vStr "today" then some (.dateToken column "today")
    else if token = .vStr "yesterday" then some (.dateToken column "yesterday")
    else if token = .vStr "last 7 days" then some (.dateToken column "last 7 days")
    else if token = .vStr "this month" then some (.dateToken column "this month")
    else if token = .vStr "last month" then some (.dateToken column "last month")
    else if token = .vStr "tomorrow" then some (.dateToken column "tomorrow")
    else if token = .vStr "next 7 days" then some (.dateToken column "next 7 days")
    else if token = .vStr "next month" then some (.dateToken column "next month")
    else none
  else if !values.isEmpty then
    let v0 := values.getD 0 .vUndef
    let pattern :=
      if modality = "exact" then jsString v0
      else if modality = "starts with" then jsString v0 ++ "%"
      else "%" ++ jsString v0 ++ "%"
    if modality = "exact" then some (.eqLower column pattern)
    else some (.likePred column pattern)
  else none

example :
    buildPredicateFromDef "status"
      { type := some "LIST", values := [.vStr "active"] }
      = some (.inList "status" [.vStr "active"]) := by decide

example :
    buildPredicateFromUser "amount"
      { type := some "NUMERIC", modality := .str "greater than", values := [.vInt 5] }
      "NUMERIC" = some (.numCmp "amount" .eq (.num 5)) := by decide

/-- One schema field as read from table metadata (`{ name, type }`). -/
structure SchemaField where
  name : String
  type : String
deriving DecidableEq

/-- Embeds the `fieldTypeByName` map: schema type, upper-cased, of the last
field with a given name (a JS `Map` keeps the last duplicate). -/
def fieldTypeByName (fields : List SchemaField) (col : String) : Option String :=
  ((fields.filter (fun f => f.name = col)).getLast?).map (fun f => toUpperStr f.type)

/-- Saved-filter side of the WHERE loop: skip unknown columns, otherwise
compile the definition (a `none` fragment is discarded by `filterMap`). -/
def savedClause (fields : List SchemaField) (cd : String × FilterDef) : Option SqlPred :=
  if (fieldTypeByName fields cd.1).isSome then buildPredicateFromDef cd.1 cd.2 else none

/-- User-filter side of the WHERE loop: skip unknown columns, otherwise
compile with the schema type passed through. -/
def userClause (fields : List SchemaField) (cd : String × FilterDef) : Option SqlPred :=
  match fieldTypeByName fields cd.1 with
  | some t => buildPredicateFromUser cd.1 cd.2 t
  | none => none

/-- Embeds the two `for ... of Object.entries(...)` loops that fill
`whereClauses`: saved predicates first, then user predicates, with `null`
fragments dropped. -/
def buildWhereClauses (fields : List SchemaField)
    (savedFilterDefinition userFilters : List (String × FilterDef)) : List SqlPred :=
  savedFilterDefinition.filterMap (savedClause fields)
    ++ userFilters.filterMap (userClause fields)

/-- Embeds `whereSql`: empty when no clause survives, otherwise WHERE
followed by the fragments joined with AND. -/
def whereSqlOf (preds : List SqlPred) : String :=
  if preds.isEmpty then ""
  else "WHERE " ++ String.intercalate " AND " (preds.map renderPred)

/-- Standard SQL semantics of one emitted IN-list fragment over a single
cell, as the external store evaluates it on a text column: a NULL cell never
matches, a non-null cell matches when it equals one of the rendered literal
values. This models the store collaborator, which is outside src. -/
def evalInList (values : List JsValue) (cell : Option String) : Bool :=
  match cell with
  | none => false
  | some s => values.any (fun v => jsString v = s)

/-- One result row of a store query: a count field `c` and a value field `v`
(absent fields are `undefined`, as in JS). -/
structure QRow where
  c : JsValue := .vUndef
  v : JsValue := .vUndef
deriving DecidableEq

/-- Fully qualified table reference with backticks. -/
def qualifiedName (projectId datasetId tableId : String) : String :=
  "`" ++ projectId ++ "." ++ datasetId ++ "." ++ tableId ++ "`"

/-- Approximate-distinct-count query issued for a Text column. -/
def approxQuery (qualified col : String) : String :=
  "SELECT APPROX_COUNT_DISTINCT(" ++ identStr col ++ ") AS c FROM " ++ qualified

/-- Distinct-values query issued when the approximate count is at most 20. -/
def listQuery (qualified col : String) : String :=
  "SELECT DISTINCT CAST(" ++ identStr col ++ " AS STRING) AS v FROM " ++ qualified
    ++ " WHERE " ++ identStr col ++ " IS NOT NULL ORDER BY v LIMIT 20"

/-- Top-frequency query issued when the approximate count exceeds 20. -/
def topQuery (qualified col : String) : String :=
  "SELECT CAST(" ++ identStr col ++ " AS STRING) AS v, COUNT(1) AS c FROM " ++ qualified
    ++ " WHERE " ++ identStr col ++ " IS NOT NULL GROUP BY v ORDER BY c DESC LIMIT 10"

/-- Option list of the Date archetype in `generateFilterConfig`. -/
def dateOptionsFull : List JsValue :=
  [.vStr "today", .vStr "yesterday", .vStr "last 7 days", .vStr "this month",
   .vStr "last month", .vStr "tomorrow", .vStr "next 7 days", .vStr "next month"]

/-- Trailing fallback applied to every discovered entry: an empty option
list becomes `[Empty, Not Empty]`. -/
def applyFallback (options : List JsValue) : List JsValue :=
  if options.isEmpty then [.vStr "Empty", .vStr "Not Empty"] else options

/-- One entry of the filter configuration returned to the UI. -/
structure ConfigEntry where
  columnName : String
  filterType : String
  options : List JsValue
deriving DecidableEq

/-- Try-block of `generateFilterConfig` for one column, with the catch
branch inlined at each failing store call: the result is the filter type and
options the mutable locals hold after the try/catch, plus the queries
issued. On a failure the locals keep the value they had when the await
threw (`FREETEXT` before the count query resolves, `LIST` after a low count
was seen), and the catch keeps them unless the declared type is BOOLEAN. -/
def discoverColumnRaw (runQuery : String → Except String (List QRow))
    (qualified : String) (f : SchemaField) : String × List JsValue × List String :=
  let columnName := f.name
  let type := toUpperStr f.type
  if isDateType type then ("DATE", dateOptionsFull, [])
  else if type = "BOOL" || type = "BOOLEAN" then
    ("BOOLEAN", [.vBool true, .vBool false], [])
  else if type = "INT64" || type = "NUMERIC" || type = "BIGNUMERIC" || type = "FLOAT64" then
    ("NUMERIC", [.vStr "top 10%", .vStr "bottom 10%"], [])
  else if type = "STRING" then
    let cq := approxQuery qualified columnName
    match runQuery cq with
    | .error _ => ("FREETEXT", [], [cq])
    | .ok countRows =>
      match countRows.head? with
      | none => ("FREETEXT", [], [cq])
      | some r =>
        let distinctCount := jsNumOrZero (jsNumber r.c)
        if distinctCount ≤ 20 then
          let lq := listQuery qualified columnName
          match runQuery lq with
          | .error _ => ("LIST", [], [cq, lq])
          | .ok vals => ("LIST", vals.map (fun row => row.v), [cq, lq])
        else
          let tq := topQuery qualified columnName
          match runQuery tq with
          | .error _ => ("FREETEXT", [], [cq, tq])
          | .ok vals => ("FREETEXT", vals.map (fun row => row.v), [cq, tq])
  else ("FREETEXT", [], [])

/-- One column of `generateFilterConfig`: the try/catch result with the
trailing empty-options fallback applied, paired with the issued queries. -/
def discoverColumn (runQuery : String → Except String (List QRow))
    (qualified : String) (f : SchemaField) : ConfigEntry × List String :=
  let raw := discoverColumnRaw runQuery qualified f
  ({ columnName := f.name, filterType := raw.1, options := applyFallback raw.2.1 },
   raw.2.2)

/-- Embeds `generateFilterConfig`: RECORD fields skipped, every other column
resolved independently; also returns the concatenated list of store queries
issued, in order. -/
def generateFilterConfig (runQuery : String → Except String (List QRow))
    (projectId datasetId tableId : String) (schemaFields : List SchemaField) :
    List ConfigEntry × List String :=
  let qualified := qualifiedName projectId datasetId tableId
  let cols := schemaFields.filter (fun f => f.type ≠ "RECORD")
  (cols.map (fun f => (discoverColumn runQuery qualified f).1),
   (cols.map (fun f => (discoverColumn runQuery qualified f).2)).flatten)

/-- Embeds `generateFilterConfigFromSchema` (static variant, no store). -/
def generateFilterConfigFromSchema (schemaFields : List SchemaField) : List ConfigEntry :=
  (schemaFields.filter (fun f => f.type ≠ "RECORD")).map (fun f =>
    let type := toUpperStr f.type
    let resolved : String × List JsValue :=
      if isDateType type then
        ("DATE", [.vStr "today", .vStr "yesterday", .vStr "last 7 days",
                  .vStr "this month", .vStr "last month"])
      else if type = "BOOL" || type = "BOOLEAN" then
        ("BOOLEAN", [.vBool true, .vBool false])
      else if type = "INT64" || type = "NUMERIC" || type = "BIGNUMERIC" || type = "FLOAT64" then
        ("NUMERIC", [.vStr "top 10%", .vStr "bottom 10%"])
      else ("FREETEXT", [])
    { columnName := f.name, filterType := resolved.1,
      options := applyFallback resolved.2 })

/-- Embeds `toTitleCaseFromSnake`: underscores to spaces, whitespace
collapsed, then each word capitalized with the rest lower-cased. -/
def capitalizeChars : List Char → String
  | [] => ""
  | c :: rest => ⟨Char.toUpper c :: rest.map Char.toLower⟩

/-- Maximal non-space runs of a character list, in order. -/
def wordsAux : List Char → List Char → List (List Char)
  | [], acc => if acc.isEmpty then [] else [acc.reverse]
  | c :: rest, acc =>
    if c = Char.ofNat 32 then
      if acc.isEmpty then wordsAux rest [] else acc.reverse :: wordsAux rest []
    else wordsAux rest (c :: acc)

/-- Embeds `toTitleCaseFromSnake` from the header formatter. -/
def toTitleCaseFromSnake (name : String) : String :=
  let spaced := name.data.map (fun ch => if ch = Char.ofNat 95 then Char.ofNat 32 else ch)
  String.intercalate " " ((wordsAux spaced []).map capitalizeChars)

/-- One table header entry (`{ key, displayName }`). -/
structure TableHeader where
  key : String
  displayName : String
deriving DecidableEq

/-- Embeds `formatTableHeaders` with the default (empty) override map. -/
def formatTableHeaders (columnNames : List String) : List TableHeader :=
  columnNames.map (fun key => { key := key, displayName := toTitleCaseFromSnake key })

/-- One saved filter of a page definition. -/
structure SavedFilter where
  identifier : String
  displayName : String
  filterDefinition : List (String × FilterDef)
deriving DecidableEq

/-- One page definition of the static catalog. -/
structure PageConfig where
  pageIdentifier : String
  title : String
  subtitle : String
  datasetId : String
  tableId : String
  savedFilters : List SavedFilter
deriving DecidableEq

/-- Embeds the `leads_view` page definition. -/
def leadsViewConfig : PageConfig :=
  { pageIdentifier := "leads_view"
    title := "All Leads"
    subtitle := "A comprehensive list of all leads in the system"
    datasetId := "relata_schema"
    tableId := "activity"
    savedFilters :=
      [{ identifier := "high_priority_leads"
         displayName := "High Priority"
         filterDefinition :=
           [("name", { type := some "FREETEXT", modality := .str "Contains",
                       values := [.vStr "ak"] })] }] }

/-- Embeds the `sales_report` page definition. -/
def salesReportConfig : PageConfig :=
  { pageIdentifier := "sales_report"
    title := "Sales Report"
    subtitle := "Weekly sales performance metrics"
    datasetId := "relata_schema"
    tableId := "vsg"
    savedFilters :=
      [{ identifier := "top_performers"
         displayName := "Top Performers"
         filterDefinition :=
           [("version", { type := some "FREETEXT", values := [.vStr "PUBLISHED"] }),
            ("owner_project_id", { type := some "FREETEXT",
                                   modality := .arr ["is not empty"] })] }] }

/-- Embeds `pageDefinitions` (the static page catalog). -/
def pageDefinitions : List PageConfig := [leadsViewConfig, salesReportConfig]

/-- Embeds `getPageConfiguration`: object lookup by page identifier, `null`
when the identifier is absent or unknown. -/
def getPageConfiguration (pageIdentifier : Option String) : Option PageConfig :=
  match pageIdentifier with
  | none => none
  | some pid => pageDefinitions.find? (fun p => p.pageIdentifier = pid)

/-- Pagination object of a request; absent members are `undefined`. -/
structure PaginationReq where
  page : Option Int := none
  pageSize : Option Int := none
deriving DecidableEq

/-- Body of a POST to the page-data endpoint, after destructuring with the
source defaults. -/
structure PageDataRequest where
  pageIdentifier : Option String := none
  savedFilterIdentifier : Option String := none
  userFilters : List (String × FilterDef) := []
  pagination : Option PaginationReq := none
deriving DecidableEq

/-- Embeds `Math.max(1, Math.min(1000, pagination.pageSize || 10))`. -/
def computeLimit (pageSize : Option Int) : Int :=
  max 1 (min 1000 (jsOrInt pageSize 10))

/-- Embeds `Math.max(0, ((pagination.page || 1) - 1) * limit)`. -/
def computeOffset (page : Option Int) (limit : Int) : Int :=
  max 0 ((jsOrInt page 1 - 1) * limit)

/-- Embeds `pagination.page || 1` as reported back in the response. -/
def currentPageOf (page : Option Int) : Int :=
  jsOrInt page 1

/-- Ceiling division for the nonnegative counts produced by the count query
(`Math.ceil(totalRecords / limit)` for `totalRecords ≥ 0`, `limit ≥ 1`). -/
def ceilDivInt (t l : Int) : Int :=
  (t + l - 1) / l

/-- Pagination block of a response. -/
structure PaginationOut where
  currentPage : Int
  pageSize : Int
  totalRecords : Int
  totalPages : Int
deriving DecidableEq

/-- Saved-filter summary sent with a response. -/
structure SavedFilterRef where
  identifier : String
  displayName : String
deriving DecidableEq

/-- Applied saved filter echoed back to the frontend. -/
structure AppliedSavedFilter where
  identifier : String
  displayName : String
  filterDefinition : List (String × FilterDef)
deriving DecidableEq

/-- Success payload of the page-data endpoint. -/
structure ResponsePayload where
  title : String
  subtitle : String
  tableHeaders : List TableHeader
  data : List QRow
  filterConfig : List ConfigEntry
  savedFilters : List SavedFilterRef
  pagination : PaginationOut
  appliedSavedFilter : Option AppliedSavedFilter
deriving DecidableEq

/-- Response of the endpoint: either a JSON error body `{ ok: false,
error }` with an HTTP status, or the success payload. -/
inductive ApiResponse where
  | errorResp (status : Int) (err : String)
  | ok (payload : ResponsePayload)
deriving DecidableEq

/-- Abstract BigQuery client: a project identifier, a metadata reader and a
query runner; `Except.error` models a thrown/rejected call. -/
structure Bq where
  projectId : String
  getMetadata : String → String → Except String (List SchemaField)
  runQuery : String → Except String (List QRow)

/-- Log entry recorded for the metadata read of a table. -/
def metadataCallLabel (datasetId tableId : String) : String :=
  "METADATA " ++ datasetId ++ "." ++ tableId

/-- Embeds the POST page-data handler. The second component logs every
store interaction (metadata read and queries), in order, so that claims
about which store calls a request attempts are expressible. The count-query
try/catch degrades `totalRecords` to the returned row count, also when the
count result has no first row (the member access would throw). -/
def handlePageData (bigquery : Option Bq) (req : PageDataRequest) :
    ApiResponse × List String :=
  let pag := req.pagination.getD { page := some 1, pageSize := some 10 }
  match getPageConfiguration req.pageIdentifier with
  | none => (.errorResp 400 "Invalid pageIdentifier", [])
  | some cfg =>
    match bigquery with
    | none => (.errorResp 500 "BigQuery client not initialized", [])
    | some bq =>
      let metaLog := metadataCallLabel cfg.datasetId cfg.tableId
      match bq.getMetadata cfg.datasetId cfg.tableId with
      | .error e => (.errorResp 500 e, [metaLog])
      | .ok fields =>
        let columnNames := (fields.filter (fun f => f.type ≠ "RECORD")).map (fun f => f.name)
        let tableHeaders := formatTableHeaders columnNames
        let fc := generateFilterConfig bq.runQuery bq.projectId cfg.datasetId cfg.tableId fields
        let savedFilter : Option SavedFilter :=
          match req.savedFilterIdentifier with
          | none => none
          | some sid => cfg.savedFilters.find? (fun sf => sf.identifier = sid)
        let savedFilterDefinition :=
          match savedFilter with
          | some sf => sf.filterDefinition
          | none => []
        let whereClauses := buildWhereClauses fields savedFilterDefinition req.userFilters
        let whereSql := whereSqlOf whereClauses
        let qualified := qualifiedName bq.projectId cfg.datasetId cfg.tableId
        let limit := computeLimit pag.pageSize
        let offset := computeOffset pag.page limit
        let query := "SELECT * FROM " ++ qualified ++ " " ++ whereSql
          ++ " LIMIT " ++ toString limit ++ " OFFSET " ++ toString offset
        match bq.runQuery query with
        | .error e => (.errorResp 500 e, [metaLog] ++ fc.2 ++ [query])
        | .ok rows =>
          let countQuery := "SELECT COUNT(1) AS c FROM " ++ qualified ++ " " ++ whereSql
          let totalRecords : Int :=
            match bq.runQuery countQuery with
            | .error _ => (rows.length : Int)
            | .ok countRows =>
              match countRows.head? with
              | none => (rows.length : Int)
              | some r => jsNumOrZero (jsNumber r.c)
          let totalPages := max 1 (ceilDivInt totalRecords limit)
          (.ok
            { title := cfg.title
              subtitle := cfg.subtitle
              tableHeaders := tableHeaders
              data := rows
              filterConfig := fc.1
              savedFilters := cfg.savedFilters.map (fun sf =>
                { identifier := sf.identifier, displayName := sf.displayName })
              pagination :=
                { currentPage := currentPageOf pag.page
                  pageSize := limit
                  totalRecords := totalRecords
                  totalPages := totalPages }
              appliedSavedFilter := savedFilter.map (fun sf =>
                ({ identifier := sf.identifier, displayName := sf.displayName,
                   filterDefinition := sf.filterDefinition } : AppliedSavedFilter)) },
           [metaLog] ++ fc.2 ++ [query, countQuery])

/-- Character list in which every single quote is part of an adjacent
doubled pair (no lone quote). -/
def noLoneQuote : List Char → Bool
  | [] => true
  | [c] => c ≠ sqChar
  | c :: c2 :: rest =>
    if c = sqChar then c2 = sqChar && noLoneQuote rest
    else noLoneQuote (c2 :: rest)

theorem escChar_of_ne {c : Char} (hc : c ≠ sqChar) : escChar c = [c] := by
  unfold escChar
  rw [if_neg hc]

theorem noLoneQuote_escList (l : List Char) : noLoneQuote (escList l) = true := by
  induction l with
  | nil => rfl
  | cons c l ih =>
    by_cases hc : c = sqChar
    · subst hc
      have e : escList (sqChar :: l) = sqChar :: sqChar :: escList l := rfl
      rw [e]
      simp [noLoneQuote, ih]
    · have e : escList (c :: l) = c :: escList l := by
        show escChar c ++ (List.map escChar l).flatten = c :: escList l
        rw [escChar_of_ne hc]
        rfl
      rw [e]
      cases h : escList l with
      | nil => simp [noLoneQuote, hc]
      | cons d rest =>
        rw [h] at ih
        simp [noLoneQuote, hc, ih]

/-- C10: every literal embedded into a compiled fragment goes through
`sqlStringLiteral`, which renders null/undefined as the keyword NULL and
otherwise wraps the stringified value in single quotes with every embedded
single quote doubled; the escaped body never contains a lone quote, and the
IN-list rendering applies `sqlStringLiteral` to each value. -/
theorem C10_sql_literal_quoting :
    sqlStringLiteral .vNull = "NULL"
    ∧ sqlStringLiteral .vUndef = "NULL"
    ∧ (∀ s : String, sqlStringLiteral (.vStr s) = sqString ++ escapeQuotes s ++ sqString)
    ∧ (∀ n : Int, sqlStringLiteral (.vInt n)
        = sqString ++ escapeQuotes (jsString (.vInt n)) ++ sqString)
    ∧ (∀ b : Bool, sqlStringLiteral (.vBool b)
        = sqString ++ escapeQuotes (jsString (.vBool b)) ++ sqString)
    ∧ (∀ s : String, noLoneQuote (escapeQuotes s).data = true)
    ∧ (∀ c vs, renderPred (.inList c vs)
        = identStr c ++ " IN (" ++ String.intercalate ", " (vs.map sqlStringLiteral) ++ ")") := by
  refine ⟨rfl, rfl, fun s => rfl, fun n => rfl, fun b => rfl,
    fun s => noLoneQuote_escList s.data, fun c vs => rfl⟩

/-- C3 counterexample: a requested pageSize of 0 is falsy in JS, so the
`pagination.pageSize || 10` default applies before clamping and the
effective page size is 10, not the 1 the claim requires. -/
theorem C3_counterexample :
    computeLimit (some 0) = 10 ∧ computeLimit (some 0) ≠ 1 := by
  constructor <;> decide

theorem computeLimit_pos (ps : Option Int) : 1 ≤ computeLimit ps :=
  le_max_left _ _

theorem computeLimit_le (ps : Option Int) : computeLimit ps ≤ 1000 :=
  max_le (by norm_num) (min_le_left _ _)

/-- C3 amended: the effective page size is max(1, min(1000, pageSize)) with
the default 10 substituted for a falsy (0 or absent) pageSize — so 0 yields
10, 5000 clamps to 1000 and negatives clamp to 1 — and the row-query offset
equals (page clamped to at least 1, with 0 or absent defaulting to 1,
minus 1) times the effective page size. -/
theorem C3_amended :
    (∀ ps : Option Int, 1 ≤ computeLimit ps ∧ computeLimit ps ≤ 1000)
    ∧ computeLimit (some 0) = 10
    ∧ computeLimit none = 10
    ∧ computeLimit (some 5000) = 1000
    ∧ computeLimit (some (-5)) = 1
    ∧ (∀ p ps : Option Int,
        computeOffset p (computeLimit ps)
          = (max 1 (jsOrInt p 1) - 1) * computeLimit ps) := by
  refine ⟨fun ps => ⟨computeLimit_pos ps, computeLimit_le ps⟩,
    by decide, by decide, by decide, by decide, fun p ps => ?_⟩
  have hl : 1 ≤ computeLimit ps := computeLimit_pos ps
  unfold computeOffset
  rcases le_or_lt 1 (jsOrInt p 1) with hq | hq
  · rw [max_eq_right hq, max_eq_right (mul_nonneg (by omega) (by omega))]
  · rw [max_eq_left (by omega : jsOrInt p 1 ≤ 1),
      max_eq_left (le_of_lt (mul_neg_of_neg_of_pos (by omega) (by omega)))]
    ring

/-- C4 counterexample: a user Numeric definition with modality greater
than compiles to an equality fragment, not to the strict greater-than
comparison the claim requires for every Numeric definition. -/
theorem C4_counterexample :
    buildPredicateFromUser "amount"
        { type := some "NUMERIC", modality := .str "greater than", values := [.vInt 5] }
        "NUMERIC"
      = some (.numCmp "amount" .eq (.num 5))
    ∧ some (SqlPred.numCmp "amount" .eq (.num 5))
      ≠ some (SqlPred.numCmp "amount" .gt (.num 5)) := by
  constructor <;> decide

/-- C4 amended: only saved Numeric definitions get the full modality
mapping — greater than to strict greater, less than to strict less, between
to the inclusive BETWEEN over values[0] and values[1], anything else
(equals or absent included) to equality against values[0]; a user Numeric
definition compiles to equality against values[0] no matter which modality
it carries (besides the empty/not-empty modalities, which short-circuit). -/
theorem C4_amended :
    (∀ (c : String) (vs : List JsValue),
      buildPredicateFromDef c { type := some "NUMERIC", modality := .str "greater than", values := vs }
        = some (.numCmp c .gt (jsNumber (vs.getD 0 .vUndef)))
      ∧ buildPredicateFromDef c { type := some "NUMERIC", modality := .str "less than", values := vs }
        = some (.numCmp c .lt (jsNumber (vs.getD 0 .vUndef)))
      ∧ buildPredicateFromDef c { type := some "NUMERIC", modality := .str "between", values := vs }
        = some (.numBetween c (jsNumber (vs.getD 0 .vUndef)) (jsNumber (vs.getD 1 .vUndef)))
      ∧ buildPredicateFromDef c { type := some "NUMERIC", modality := .str "equals", values := vs }
        = some (.numCmp c .eq (jsNumber (vs.getD 0 .vUndef)))
      ∧ buildPredicateFromDef c { type := some "NUMERIC", values := vs }
        = some (.numCmp c .eq (jsNumber (vs.getD 0 .vUndef))))
    ∧ (∀ (c : String) (mod : ModalityInput) (n : Int),
      buildPredicateFromUser c { type := some "NUMERIC", modality := mod, values := [.vInt n] }
          "NUMERIC"
        = if isEmptyModality (normalizeModality mod) then some (.emptyPred c)
          else if isNotEmptyModality (normalizeModality mod) then some (.notEmptyPred c)
          else some (.numCmp c .eq (.num n))) := by
  refine ⟨fun c vs => ⟨rfl, rfl, rfl, rfl, rfl⟩, fun c mod n => ?_⟩
  have e1 : toUpperStr (jsOrStr (some "NUMERIC") "NUMERIC") = "NUMERIC" := rfl
  have e2 : isDateType "NUMERIC" = false := rfl
  have e3 : isTopBottomToken (JsValue.vInt n) = false := rfl
  by_cases h1 : isEmptyModality (normalizeModality mod) = true
  · simp [buildPredicateFromUser, e1, e2, e3, h1]
  · by_cases h2 : isNotEmptyModality (normalizeModality mod) = true
    · simp [buildPredicateFromUser, e1, e2, e3, h1, h2]
    · simp [buildPredicateFromUser, e1, e2, e3, h1, h2, jsNumber]

/-- C8 counterexample: a saved Numeric definition carrying the non-numeric
literal abc does not fail compilation; it produces an equality fragment
against the coerced value NaN, rendered as a comparison with NaN. -/
theorem C8_counterexample :
    buildPredicateFromDef "amount" { type := some "NUMERIC", values := [.vStr "abc"] }
      = some (.numCmp "amount" .eq .nan)
    ∧ (buildPredicateFromDef "amount"
        { type := some "NUMERIC", values := [.vStr "abc"] }).isSome = true
    ∧ renderPred (.numCmp "amount" .eq .nan) = "`amount` = NaN" := by
  refine ⟨by decide, by decide, rfl⟩

/-- C8 amended: for every Numeric definition (saved, and user apart from
the top/bottom 10 percent tokens and the Empty/Not Empty tokens) whose
value is a string that coerces to NaN, compilation silently produces an
equality fragment against NaN instead of failing. -/
theorem C8_amended (c s : String) (hnan : jsNumber (.vStr s) = .nan)
    (h1 : s ≠ "Empty") (h2 : s ≠ "Not Empty")
    (h3 : isTopBottomToken (.vStr s) = false) :
    buildPredicateFromDef c { type := some "NUMERIC", values := [.vStr s] }
      = some (.numCmp c .eq .nan)
    ∧ buildPredicateFromUser c { type := some "NUMERIC", values := [.vStr s] } "STRING"
      = some (.numCmp c .eq .nan) := by
  constructor
  · show some (SqlPred.numCmp c CmpOp.eq (jsNumber (JsValue.vStr s)))
      = some (SqlPred.numCmp c CmpOp.eq JsNum.nan)
    rw [hnan]
  · have e1 : toUpperStr (jsOrStr (some "NUMERIC") "STRING") = "NUMERIC" := rfl
    have e2 : isDateType "NUMERIC" = false := rfl
    have e4 : normalizeModality ModalityInput.absent = "" := rfl
    have e5 : isEmptyModality "" = false := rfl
    have e6 : isNotEmptyModality "" = false := rfl
    simp [buildPredicateFromUser, e1, e2, e4, e5, e6, h1, h2, h3, hnan]

/-- C8 witness: the amended statement applied to the literal abc. -/
theorem C8_witness :
    buildPredicateFromDef "score" { type := some "NUMERIC", values := [.vStr "abc"] }
      = some (.numCmp "score" .eq .nan)
    ∧ buildPredicateFromUser "score" { type := some "NUMERIC", values := [.vStr "abc"] } "STRING"
      = some (.numCmp "score" .eq .nan) :=
  C8_amended "score" "abc" (by decide) (by decide) (by decide) (by decide)

/-- C6: a user filter definition whose values list is exactly the Empty or
Not Empty token short-circuits — before any type dispatch, so regardless of
declared type and modality — to the is-empty predicate or its negation,
while the saved-filter compiler has no such shortcut and treats the tokens
as ordinary literals (an IN-list member, a LIKE pattern). -/
theorem C6_empty_token_shortcut (c : String) (userDef : FilterDef) (fieldType : String) :
    (userDef.values = [.vStr "Empty"] →
      buildPredicateFromUser c userDef fieldType = some (.emptyPred c))
    ∧ (userDef.values = [.vStr "Not Empty"] →
      buildPredicateFromUser c userDef fieldType = some (.notEmptyPred c))
    ∧ buildPredicateFromDef "col" { type := some "LIST", values := [.vStr "Empty"] }
      = some (.inList "col" [.vStr "Empty"])
    ∧ buildPredicateFromDef "col" { type := some "FREETEXT", values := [.vStr "Not Empty"] }
      = some (.likePred "col" "%Not Empty%") := by
  refine ⟨fun h => ?_, fun h => ?_, by decide, by decide⟩
  · simp [buildPredicateFromUser, h]
  · simp [buildPredicateFromUser, h]

/-- C6 witness: the shortcut applied at a Date-typed column, where the
declared type would otherwise route to the relative-token branch. -/
theorem C6_witness :
    buildPredicateFromUser "email" { values := [.vStr "Empty"] } "DATE"
      = some (.emptyPred "email")
    ∧ buildPredicateFromUser "email" { values := [.vStr "Not Empty"] } "DATE"
      = some (.notEmptyPred "email") :=
  ⟨(C6_empty_token_shortcut "email" { values := [.vStr "Empty"] } "DATE").1 rfl,
   (C6_empty_token_shortcut "email" { values := [.vStr "Not Empty"] } "DATE").2.1 rfl⟩

theorem applyFallback_ne_nil (o : List JsValue) : applyFallback o ≠ [] := by
  cases o <;> simp [applyFallback]

/-- C7: every entry produced by option discovery (dynamic and static
variants) carries a non-empty options list, and an entry whose own
resolution produced an empty list receives exactly the Empty/Not Empty
fallback pair. -/
theorem C7_options_nonempty (runQuery : String → Except String (List QRow))
    (projectId datasetId tableId : String) (fields : List SchemaField) (e : ConfigEntry) :
    (e ∈ (generateFilterConfig runQuery projectId datasetId tableId fields).1 →
      e.options ≠ [])
    ∧ (e ∈ generateFilterConfigFromSchema fields → e.options ≠ [])
    ∧ applyFallback [] = [.vStr "Empty", .vStr "Not Empty"] := by
  refine ⟨fun hmem => ?_, fun hmem => ?_, rfl⟩
  · simp only [generateFilterConfig, List.mem_map] at hmem
    obtain ⟨f, hf, he⟩ := hmem
    rw [← he]
    exact applyFallback_ne_nil _
  · simp only [generateFilterConfigFromSchema, List.mem_map] at hmem
    obtain ⟨f, hf, he⟩ := hmem
    rw [← he]
    exact applyFallback_ne_nil _

/-- C7 witness: a Boolean column of the static variant keeps its literal
options, which are non-empty. -/
theorem C7_witness :
    ({ columnName := "flag", filterType := "BOOLEAN",
       options := [.vBool true, .vBool false] } : ConfigEntry).options ≠ [] :=
  (C7_options_nonempty (fun _ => .error "down") "p" "d" "t"
    [{ name := "flag", type := "BOOL" }]
    { columnName := "flag", filterType := "BOOLEAN",
      options := [.vBool true, .vBool false] }).2.1 (by decide)

/-- C9: a request whose page identifier resolves to no page configuration
is answered immediately with the JSON error body carrying status 400, and
the store-interaction log is empty — no metadata read and no query is
attempted. -/
theorem C9_unknown_page (bigquery : Option Bq) (req : PageDataRequest)
    (h : getPageConfiguration req.pageIdentifier = none) :
    handlePageData bigquery req = (.errorResp 400 "Invalid pageIdentifier", []) := by
  simp [handlePageData, h]

/-- C9 witness: the guard fired on a concrete unknown identifier with a
client present, and also with no client (the guard runs first). -/
theorem C9_witness :
    handlePageData none { pageIdentifier := some "unknown_page" }
      = (.errorResp 400 "Invalid pageIdentifier", []) :=
  C9_unknown_page none { pageIdentifier := some "unknown_page" } (by decide)

/-- C1: saved and user filter definitions are compiled independently, null
fragments are discarded, and every surviving fragment — and only those —
appears in the AND-chain; on the contradictory same-column scenario (saved
status active, user status pending, both List) both fragments survive into
the WHERE clause joined by AND, and under the store semantics of the two
IN-list fragments no cell value can satisfy both. -/
theorem C1_filters_combined_with_and :
    (∀ (fields : List SchemaField) (saved user : List (String × FilterDef)) (p : SqlPred),
      p ∈ buildWhereClauses fields saved user ↔
        ((∃ cd, cd ∈ saved ∧ (fieldTypeByName fields cd.1).isSome = true
            ∧ buildPredicateFromDef cd.1 cd.2 = some p)
         ∨ (∃ cd t, cd ∈ user ∧ fieldTypeByName fields cd.1 = some t
            ∧ buildPredicateFromUser cd.1 cd.2 t = some p)))
    ∧ buildWhereClauses [{ name := "status", type := "STRING" }]
        [("status", { type := some "LIST", values := [.vStr "active"] })]
        [("status", { type := some "LIST", values := [.vStr "pending"] })]
      = [.inList "status" [.vStr "active"], .inList "status" [.vStr "pending"]]
    ∧ whereSqlOf [.inList "status" [.vStr "active"], .inList "status" [.vStr "pending"]]
      = "WHERE " ++ renderPred (.inList "status" [.vStr "active"])
        ++ " AND " ++ renderPred (.inList "status" [.vStr "pending"])
    ∧ (∀ cell : Option String,
        (evalInList [.vStr "active"] cell && evalInList [.vStr "pending"] cell) = false) := by
  refine ⟨fun fields saved user p => ?_, by decide, by decide, fun cell => ?_⟩
  · unfold buildWhereClauses
    rw [List.mem_append, List.mem_filterMap, List.mem_filterMap]
    constructor
    · rintro (⟨cd, hmem, hcd⟩ | ⟨cd, hmem, hcd⟩)
      · unfold savedClause at hcd
        by_cases hs : (fieldTypeByName fields cd.1).isSome = true
        · exact Or.inl ⟨cd, hmem, hs, by rwa [if_pos hs] at hcd⟩
        · rw [if_neg hs] at hcd
          cases hcd
      · unfold userClause at hcd
        cases hft : fieldTypeByName fields cd.1 with
        | none =>
          rw [hft] at hcd
          cases hcd
        | some t =>
          rw [hft] at hcd
          exact Or.inr ⟨cd, t, hmem, hft, hcd⟩
    · rintro (⟨cd, hmem, hs, hb⟩ | ⟨cd, t, hmem, hft, hb⟩)
      · refine Or.inl ⟨cd, hmem, ?_⟩
        unfold savedClause
        rw [if_pos hs]
        exact hb
      · refine Or.inr ⟨cd, hmem, ?_⟩
        unfold userClause
        rw [hft]
        exact hb
  · cases cell with
    | none => rfl
    | some s =>
      by_cases h : s = "active"
      · subst h
        decide
      · simp only [evalInList, List.any_cons, List.any_nil, Bool.or_false, jsString]
        rw [decide_eq_false (fun hh => h hh.symm)]
        rfl

/-- C1 witness: the general membership characterization instantiated on the
contradiction scenario, placing the saved fragment in the AND-chain. -/
theorem C1_witness :
    SqlPred.inList "status" [.vStr "active"]
      ∈ buildWhereClauses [{ name := "status", type := "STRING" }]
          [("status", { type := some "LIST", values := [.vStr "active"] })]
          [("status", { type := some "LIST", values := [.vStr "pending"] })] :=
  (C1_filters_combined_with_and.1 [{ name := "status", type := "STRING" }]
      [("status", { type := some "LIST", values := [.vStr "active"] })]
      [("status", { type := some "LIST", values := [.vStr "pending"] })]
      (.inList "status" [.vStr "active"])).2
    (Or.inl ⟨("status", { type := some "LIST", values := [.vStr "active"] }),
      by decide, by decide, by decide⟩)

theorem applyFallback_of_ne_nil {o : List JsValue} (h : o ≠ []) :
    applyFallback o = o := by
  cases o with
  | nil => exact absurd rfl h
  | cons a l => rfl

/-- C2: for a Text (STRING) column, discovery issues the approximate
distinct count query; with a count of at most 20 the column resolves to the
List archetype with the distinct-values query result (the query text pins
non-null values cast to text, sorted ascending, capped at 20) as options,
otherwise to FreeText with the top-frequency query result (the query text
pins the 10 most frequent non-null values, count descending) as options. -/
theorem C2_text_option_discovery
    (runQuery : String → Except String (List QRow))
    (projectId datasetId tableId col : String)
    (r : QRow) (rest vals : List QRow)
    (hcount : runQuery (approxQuery (qualifiedName projectId datasetId tableId) col)
      = .ok (r :: rest)) :
    (jsNumOrZero (jsNumber r.c) ≤ 20 →
      runQuery (listQuery (qualifiedName projectId datasetId tableId) col) = .ok vals →
      vals.map (fun row => row.v) ≠ [] →
      discoverColumn runQuery (qualifiedName projectId datasetId tableId)
          { name := col, type := "STRING" }
        = ({ columnName := col, filterType := "LIST",
             options := vals.map (fun row => row.v) },
           [approxQuery (qualifiedName projectId datasetId tableId) col,
            listQuery (qualifiedName projectId datasetId tableId) col]))
    ∧ (20 < jsNumOrZero (jsNumber r.c) →
      runQuery (topQuery (qualifiedName projectId datasetId tableId) col) = .ok vals →
      vals.map (fun row => row.v) ≠ [] →
      discoverColumn runQuery (qualifiedName projectId datasetId tableId)
          { name := col, type := "STRING" }
        = ({ columnName := col, filterType := "FREETEXT",
             options := vals.map (fun row => row.v) },
           [approxQuery (qualifiedName projectId datasetId tableId) col,
            topQuery (qualifiedName projectId datasetId tableId) col])) := by
  have e4 : toUpperStr "STRING" = "STRING" := rfl
  have f1 : isDateType "STRING" = false := rfl
  have f2 : decide ("STRING" = "BOOL") = false := rfl
  have f3 : decide ("STRING" = "BOOLEAN") = false := rfl
  have f4 : decide ("STRING" = "INT64") = false := rfl
  have f5 : decide ("STRING" = "NUMERIC") = false := rfl
  have f6 : decide ("STRING" = "BIGNUMERIC") = false := rfl
  have f7 : decide ("STRING" = "FLOAT64") = false := rfl
  constructor
  · intro hcnt hq hne
    simp only [discoverColumn, discoverColumnRaw, e4, f1, f2, f3, f4, f5, f6, f7,
      Bool.or_false, Bool.false_or, Bool.false_eq_true, if_false, if_true,
      hcount, List.head?_cons, if_pos hcnt, hq]
    rw [applyFallback_of_ne_nil hne]
  · intro hcnt hq hne
    simp only [discoverColumn, discoverColumnRaw, e4, f1, f2, f3, f4, f5, f6, f7,
      Bool.or_false, Bool.false_or, Bool.false_eq_true, if_false, if_true,
      hcount, List.head?_cons, if_neg (not_le_of_lt hcnt), hq]
    rw [applyFallback_of_ne_nil hne]

/-- Store stub for the C2 witness: a low distinct count and two distinct
values for the status column; anything else fails. -/
def c2Store : String → Except String (List QRow) :=
  fun q =>
    if q = approxQuery (qualifiedName "proj" "ds" "tbl") "status" then
      .ok [{ c := .vInt 3 }]
    else if q = listQuery (qualifiedName "proj" "ds" "tbl") "status" then
      .ok [{ v := .vStr "active" }, { v := .vStr "pending" }]
    else .error "unexpected"

/-- C2 witness: the List resolution applied to a concrete store. -/
theorem C2_witness :
    discoverColumn c2Store (qualifiedName "proj" "ds" "tbl")
        { name := "status", type := "STRING" }
      = ({ columnName := "status", filterType := "LIST",
           options := [.vStr "active", .vStr "pending"] },
         [approxQuery (qualifiedName "proj" "ds" "tbl") "status",
          listQuery (qualifiedName "proj" "ds" "tbl") "status"]) :=
  (C2_text_option_discovery c2Store "proj" "ds" "tbl" "status" { c := .vInt 3 } []
      [{ v := .vStr "active" }, { v := .vStr "pending" }] (by rfl)).1
    (by decide) (by rfl) (by decide)

/-- Store stub for the C5 claim: the approximate count succeeds with 5, but
every other query — the distinct-list query included — fails. -/
def c5Store : String → Except String (List QRow) :=
  fun q =>
    if q = approxQuery (qualifiedName "proj" "ds" "tbl") "status" then
      .ok [{ c := .vInt 5 }]
    else .error "store down"

/-- C5 counterexample: when the count query succeeds with a low count and
the distinct-list query then fails, the column is reported with archetype
LIST — not the FreeText degradation the claim requires for every failing
column. -/
theorem C5_counterexample :
    (discoverColumn c5Store (qualifiedName "proj" "ds" "tbl")
        { name := "status", type := "STRING" }).1.filterType = "LIST"
    ∧ (discoverColumn c5Store (qualifiedName "proj" "ds" "tbl")
        { name := "status", type := "STRING" }).1.filterType ≠ "FREETEXT"
    ∧ (discoverColumn c5Store (qualifiedName "proj" "ds" "tbl")
        { name := "status", type := "STRING" }).1.options
      = [.vStr "Empty", .vStr "Not Empty"] := by
  refine ⟨by decide, by decide, by decide⟩

/-- C5 amended: only Text columns issue discovery queries, so only they can
fail; a failing approximate-count query leaves the column FreeText with the
Empty/Not Empty fallback options, a failing distinct-list query (after a
count of at most 20) leaves it List with the fallback options, a failing
top-frequency query leaves it FreeText with the fallback options; each
column is resolved independently of the others and discovery always
produces an entry per non-RECORD column, so the request never fails. -/
theorem C5_per_column_failure
    (runQuery : String → Except String (List QRow))
    (qualified col e1 e2 e3 : String) (r : QRow) (rest : List QRow)
    (projectId datasetId tableId : String) (fields : List SchemaField)
    (f : SchemaField) :
    (runQuery (approxQuery qualified col) = .error e1 →
      discoverColumn runQuery qualified { name := col, type := "STRING" }
        = ({ columnName := col, filterType := "FREETEXT",
             options := [.vStr "Empty", .vStr "Not Empty"] },
           [approxQuery qualified col]))
    ∧ (runQuery (approxQuery qualified col) = .ok (r :: rest) →
       jsNumOrZero (jsNumber r.c) ≤ 20 →
       runQuery (listQuery qualified col) = .error e2 →
      discoverColumn runQuery qualified { name := col, type := "STRING" }
        = ({ columnName := col, filterType := "LIST",
             options := [.vStr "Empty", .vStr "Not Empty"] },
           [approxQuery qualified col, listQuery qualified col]))
    ∧ (runQuery (approxQuery qualified col) = .ok (r :: rest) →
       20 < jsNumOrZero (jsNumber r.c) →
       runQuery (topQuery qualified col) = .error e3 →
      discoverColumn runQuery qualified { name := col, type := "STRING" }
        = ({ columnName := col, filterType := "FREETEXT",
             options := [.vStr "Empty", .vStr "Not Empty"] },
           [approxQuery qualified col, topQuery qualified col]))
    ∧ ((generateFilterConfig runQuery projectId datasetId tableId fields).1
        = (fields.filter (fun g => g.type ≠ "RECORD")).map
            (fun g => (discoverColumn runQuery
              (qualifiedName projectId datasetId tableId) g).1))
    ∧ (toUpperStr f.type ≠ "STRING" → (discoverColumn runQuery qualified f).2 = []) := by
  have e4 : toUpperStr "STRING" = "STRING" := rfl
  have f1 : isDateType "STRING" = false := rfl
  have f2 : decide ("STRING" = "BOOL") = false := rfl
  have f3 : decide ("STRING" = "BOOLEAN") = false := rfl
  have f4 : decide ("STRING" = "INT64") = false := rfl
  have f5 : decide ("STRING" = "NUMERIC") = false := rfl
  have f6 : decide ("STRING" = "BIGNUMERIC") = false := rfl
  have f7 : decide ("STRING" = "FLOAT64") = false := rfl
  refine ⟨fun ha => ?_, fun hc hle hl => ?_, fun hc hgt ht => ?_, rfl, fun hns => ?_⟩
  · simp only [discoverColumn, discoverColumnRaw, e4, f1, f2, f3, f4, f5, f6, f7,
      Bool.or_false, Bool.false_or, Bool.false_eq_true, if_false, if_true, ha]
    rfl
  · simp only [discoverColumn, discoverColumnRaw, e4, f1, f2, f3, f4, f5, f6, f7,
      Bool.or_false, Bool.false_or, Bool.false_eq_true, if_false, if_true,
      hc, List.head?_cons, if_pos hle, hl]
    rfl
  · simp only [discoverColumn, discoverColumnRaw, e4, f1, f2, f3, f4, f5, f6, f7,
      Bool.or_false, Bool.false_or, Bool.false_eq_true, if_false, if_true,
      hc, List.head?_cons, if_neg (not_le_of_lt hgt), ht]
    rfl
  · show (discoverColumnRaw runQuery qualified f).2.2 = []
    simp only [discoverColumnRaw]
    split_ifs with h1 h2 h3 <;> rfl

/-- C5 witness: the amended list-failure case applied to a concrete store,
and the isolation equation applied to a two-column schema. -/
theorem C5_witness :
    discoverColumn c5Store (qualifiedName "proj" "ds" "tbl")
        { name := "status", type := "STRING" }
      = ({ columnName := "status", filterType := "LIST",
           options := [.vStr "Empty", .vStr "Not Empty"] },
         [approxQuery (qualifiedName "proj" "ds" "tbl") "status",
          listQuery (qualifiedName "proj" "ds" "tbl") "status"]) :=
  (C5_per_column_failure c5Store (qualifiedName "proj" "ds" "tbl") "status"
      "" "store down" "" { c := .vInt 5 } [] "proj" "ds" "tbl" []
      { name := "", type := "" }).2.1 (by rfl) (by decide) (by rfl)
